import Mathlib

/-!
Verification of the Lumina client (src/src/App.jsx) against its
natural-language specification.  The JavaScript is shallowly embedded:
numeric computations on image dimensions, render-loop parameters and
progress percentages are modelled over `ℚ` (the source uses IEEE doubles
on values where the arithmetic is exact in the rationals), the remote
generation API is an explicit oracle argument, and React state updates
become explicit record values.
-/

namespace Lumina

/-! ## Image Preprocessor (`resizeImage`, App.jsx lines 20–56) -/

/-- Dimension computation of `resizeImage`: scale so that the longer of
width/height does not exceed `MAX_SIZE = 1024`; the source branches on
`width > height`, updates `height *= MAX_SIZE / width` before setting
`width = MAX_SIZE` (and symmetrically), and leaves images already within
the bound untouched. -/
def resizeDims (w h : ℚ) : ℚ × ℚ :=
  if w > h then
    if w > 1024 then (1024, h * (1024 / w)) else (w, h)
  else
    if h > 1024 then (w * (1024 / h), 1024) else (w, h)

/-- The re-encoded payload produced by `resizeImage`: dimensions plus the
encoding parameters of `canvas.toDataURL('image/jpeg', 0.7)`. -/
structure EncodedImage where
  mime : String
  quality : ℚ
  width : ℚ
  height : ℚ
  deriving DecidableEq

/-- `resizeImage` (App.jsx lines 20–56): the uploaded file's own MIME type
`srcMime` is never consulted for the output encoding; the canvas is always
exported as JPEG at quality 0.7 with the bounded dimensions. -/
def resizeImage (srcMime : String) (w h : ℚ) : EncodedImage :=
  { mime := "image/jpeg"
    quality := 7 / 10
    width := (resizeDims w h).1
    height := (resizeDims w h).2 }

/-! ## Generation Client (`generateEditorialImage`, App.jsx lines 60–118) -/

/-- One `inlineData` part of the request/response body: a MIME label and
base64 payload. -/
structure InlineData where
  mimeType : String
  data : String
  deriving DecidableEq

/-- The request body built by `generateEditorialImage`: the interpolated
prompt text, the inline image part, and the generation temperature. -/
structure GenPayload where
  promptText : String
  inlineData : InlineData
  temperature : ℚ
  deriving DecidableEq

/-- The prompt template of `generateEditorialImage` with the pose directive
interpolated at `Pose:` (source template-literal whitespace normalised to
single spaces). -/
def fullPrompt (posePrompt : String) : String :=
  "Transform this person into a high-fashion editorial magazine shot. " ++
  "Style: Vogue cover aesthetic, high detail, photorealistic. " ++
  "Pose: " ++ posePrompt ++ " " ++
  "Keep the person's facial features recognizable but stylized. " ++
  "Background: Clean minimalist studio or blurred bokeh. " ++
  "CRITICAL: Generate ONLY the photograph with NO text, NO watermarks, " ++
  "NO labels, NO words anywhere in the image. " ++
  "The image should be a pure fashion photograph without any text overlays."

/-- The `payload` object of `generateEditorialImage` (lines 80–91): the
image part is always declared `mimeType: "image/jpeg"`, temperature 0.8. -/
def buildPayload (base64Image posePrompt : String) : GenPayload :=
  { promptText := fullPrompt posePrompt
    inlineData := { mimeType := "image/jpeg", data := base64Image }
    temperature := 8 / 10 }

/-- One `parts` entry of the remote response; only its optional
`inlineData` is consulted by the client. -/
structure RespPart where
  inlineData : Option InlineData
  deriving DecidableEq

/-- The remote HTTP response as observed by `generateEditorialImage`:
`response.ok`, `response.statusText`, and the
`candidates[0].content.parts` list it drills into. -/
structure RemoteResponse where
  ok : Bool
  statusText : String
  parts : List RespPart
  deriving DecidableEq

/-- The extraction chain
`data.candidates?.[0]?.content?.parts?.find(p => p.inlineData)?.inlineData?.data`
(line 106). -/
def extractImageData (resp : RemoteResponse) : Option String :=
  ((resp.parts.find? (fun p => p.inlineData.isSome)).bind
    (fun p => p.inlineData)).map (fun d => d.data)

/-- The error outcomes of `generateEditorialImage`: the thrown
`"API Key missing"` (line 63), `` `API Error: ${statusText}` `` (line 102),
and `"No image generated"` (line 110). -/
inductive GenError where
  | apiKeyMissing
  | apiError (statusText : String)
  | noImageGenerated
  deriving DecidableEq

/-- `generateEditorialImage` (lines 60–118), with the remote API as an
oracle from request body to response.  The second component counts the
network calls attempted (`fetch`, line 94): the missing-credential check
throws before any call.  On success the result is the JPEG data URL of
line 113. -/
def generateEditorialImage (apiKey : String)
    (remote : GenPayload → RemoteResponse) (base64Image posePrompt : String) :
    Except GenError String × ℕ :=
  if apiKey = "" then (Except.error GenError.apiKeyMissing, 0)
  else
    let resp := remote (buildPayload base64Image posePrompt)
    if resp.ok = false then (Except.error (GenError.apiError resp.statusText), 1)
    else
      match extractImageData resp with
      | none => (Except.error GenError.noImageGenerated, 1)
      | some d => (Except.ok ("data:image/jpeg;base64," ++ d), 1)

/-! ## Batch Orchestrator (`processImages`, App.jsx lines 160–203) -/

/-- The fixed ordered style directives (App.jsx lines 121–126). -/
def POSES : List String :=
  [ "Close-up beauty shot, hands framing the face, intense gaze, soft lighting.",
    "Full body power pose, walking towards camera, wind in hair, low angle shot.",
    "Side profile silhouette, soft rim lighting, moody atmosphere, looking away.",
    "Sitting on a high stool, chic and relaxed, fashion week street style, confident smile." ]

/-- One entry of the `Promise.all` fan-out (lines 171–185): the per-pose
`try`/`catch` maps a successful generation to its asset and any failure to
`null` (here `none`), so one directive's failure never propagates. -/
def genOutcome (apiKey : String) (remote : GenPayload → RemoteResponse)
    (base64Input pose : String) : Option String :=
  match (generateEditorialImage apiKey remote base64Input pose).1 with
  | Except.ok r => some r
  | Except.error _ => none

/-- The ordered outcome list of the batch: `POSES.map(...)` wrapped in
`Promise.all`, which preserves directive order regardless of completion
order. -/
def batchOutcomes (apiKey : String) (remote : GenPayload → RemoteResponse)
    (base64Input : String) : List (Option String) :=
  POSES.map (genOutcome apiKey remote base64Input)

/-- `progressPerImage = 90 / POSES.length` (line 168). -/
def progressPerImage : ℚ := 90 / (POSES.length : ℚ)

/-- One progress update `prev => Math.min(prev + progressPerImage, 95)`
(lines 176 and 181), issued once per completed call, success or failure. -/
def progressStep (p : ℚ) : ℚ := min (p + progressPerImage) 95

/-- The loading progress after `n` of the batch's calls have completed,
starting from the base `setLoadingProgress(10)` of line 167. -/
def progressAfter : ℕ → ℚ
  | 0 => 10
  | n + 1 => progressStep (progressAfter n)

/-- The sequence of values fed to `setLoadingProgress` during one
`processImages` run: nothing when the key check bails out at line 161,
otherwise the base 10, one clamped increment per completed call, and the
final `setLoadingProgress(100)` (line 196) only when at least one result
survived the filter. -/
def loadingTrace (apiKey : String) (remote : GenPayload → RemoteResponse)
    (base64Input : String) : List ℚ :=
  if apiKey = "" then []
  else
    (List.range (POSES.length + 1)).map progressAfter ++
      (if ((batchOutcomes apiKey remote base64Input).filterMap id).isEmpty
       then [] else [100])

/-- The component state written by one `processImages` run: the screen
(`setStep`), the banner (`setErrorMsg`), the surviving assets
(`setGeneratedImages`), and the argument of the deferred
`generateGlamCamVideo(results[0])` call (line 200). -/
structure ProcState where
  step : String
  errorMsg : String
  generatedImages : List String
  videoSeed : Option String
  deriving DecidableEq

/-- `processImages` (lines 160–203): bail out to the upload screen when the
key is missing; otherwise fan out one call per pose, filter the `null`
absences, fail back to upload when nothing survived, and otherwise show the
results and seed the video with the first surviving asset. -/
def processImages (apiKey : String) (remote : GenPayload → RemoteResponse)
    (base64Input : String) : ProcState :=
  if apiKey = "" then
    { step := "upload"
      errorMsg := "API Key is missing! Check your .env file."
      generatedImages := []
      videoSeed := none }
  else
    let results := (batchOutcomes apiKey remote base64Input).filterMap id
    if results.isEmpty then
      { step := "upload"
        errorMsg := "Failed to generate any images. Please try again."
        generatedImages := []
        videoSeed := none }
    else
      { step := "results"
        errorMsg := ""
        generatedImages := results
        videoSeed := results.head? }

/-- Number of network calls attempted by one `processImages` run: zero when
the key check at line 161 returns early, otherwise the sum of the
per-directive counts. -/
def processImagesCalls (apiKey : String) (remote : GenPayload → RemoteResponse)
    (base64Input : String) : ℕ :=
  if apiKey = "" then 0
  else (POSES.map
    (fun pose => (generateEditorialImage apiKey remote base64Input pose).2)).sum

/-! ## Video Compositor (`generateGlamCamVideo`, App.jsx lines 206–322) -/

/-- The ordered codec preference list probed at lines 229–235. -/
def videoTypes : List String :=
  [ "video/mp4",
    "video/webm;codecs=vp9",
    "video/webm;codecs=vp8",
    "video/webm;codecs=h264",
    "video/webm" ]

/-- `types.find(t => MediaRecorder.isTypeSupported(t)) || ""` (line 236),
with the runtime's support probe as an oracle. -/
def negotiatedMime (supported : String → Bool) : String :=
  (videoTypes.find? supported).getD ""

/-- The finalized blob's declared type,
`new Blob(chunks, { type: mimeType || 'video/webm' })` (line 253). -/
structure VideoAsset where
  blobType : String
  deriving DecidableEq

/-- The failure outcomes of `generateGlamCamVideo`'s `try` block: only a
rejected image load (lines 220–226) aborts the render.  An unsupported
probe list is NOT a failure — line 239 merely logs a warning and the
recorder is constructed with no options (line 244). -/
inductive CompositorError where
  | assetLoadFailed
  deriving DecidableEq

/-- Outcome of one `generateGlamCamVideo` run (lines 206–322), abstracting
the host encoder as always able to record: if the seed image fails to
decode the `catch` at line 317 reports the error; otherwise the render
completes and `onstop` (lines 252–258) publishes a blob whose type is the
negotiated MIME, defaulted to `'video/webm'` when the probe found none. -/
def generateGlamCamVideo (supported : String → Bool) (imageLoads : Bool)
    (imageSrc : String) : Except CompositorError VideoAsset :=
  if imageLoads = false then Except.error CompositorError.assetLoadFailed
  else
    let mimeType := negotiatedMime supported
    Except.ok { blobType := if mimeType = "" then "video/webm" else mimeType }

/-- The two pieces of component state written unconditionally at the top of
`generateGlamCamVideo` (lines 207–208). -/
structure RenderUiState where
  isVideoGenerating : Bool
  renderingProgress : ℕ
  deriving DecidableEq

/-- Entry of `generateGlamCamVideo` (lines 206–208): the incoming state is
never inspected — there is no in-flight check — and the flags are
overwritten with `setIsVideoGenerating(true); setRenderingProgress(0)`. -/
def startGlamCamRender (_s : RenderUiState) : RenderUiState :=
  { isVideoGenerating := true, renderingProgress := 0 }

/-! ### Render loop (`animate`, App.jsx lines 268–313) -/

/-- `fps = 30` (line 263). -/
def fps : ℕ := 30

/-- `durationSeconds = 3` (line 264). -/
def durationSeconds : ℕ := 3

/-- `totalFrames = fps * durationSeconds` (line 265). -/
def totalFrames : ℕ := fps * durationSeconds

/-- Normalized time `t = frame / totalFrames` (line 281). -/
def tOf (frame : ℕ) : ℚ := (frame : ℚ) / (totalFrames : ℚ)

/-- Smoothstep easing `smoothT = t * t * (3 - 2 * t)` (line 282). -/
def smoothTOf (frame : ℕ) : ℚ :=
  tOf frame * tOf frame * (3 - 2 * tOf frame)

/-- `scale = 1.0 + (0.1 * smoothT)` (line 284). -/
def scaleOf (frame : ℕ) : ℚ := 1 + 1 / 10 * smoothTOf frame

/-- `panY = 0 - (10 * smoothT)` (line 285). -/
def panYOf (frame : ℕ) : ℚ := 0 - 10 * smoothTOf frame

/-- The effective alpha of the white flash overlay: `0.8 - frame * 0.2`
while `frame < 4` (lines 306–308), and no overlay at all afterwards. -/
def flashAlpha (frame : ℕ) : ℚ :=
  if frame < 4 then 8 / 10 - (frame : ℚ) * (2 / 10) else 0

/-- Canvas width (line 214). -/
def canvasW : ℚ := 720

/-- Canvas height (line 215). -/
def canvasH : ℚ := 1280

/-- The draw rectangle computed each frame (lines 287–301). -/
structure DrawPlacement where
  drawW : ℚ
  drawH : ℚ
  offsetX : ℚ
  offsetY : ℚ
  deriving DecidableEq

/-- The per-frame cover fit (lines 287–301): compare image aspect to canvas
aspect, size the drawn rectangle from the binding dimension scaled by
`scale`, keep the image's own aspect for the other dimension, center, and
add the pan offset to `offsetY`. -/
def coverFit (imgW imgH scale panY : ℚ) : DrawPlacement :=
  if imgW / imgH > canvasW / canvasH then
    { drawW := canvasH * scale * (imgW / imgH)
      drawH := canvasH * scale
      offsetX := (canvasW - canvasH * scale * (imgW / imgH)) / 2
      offsetY := (canvasH - canvasH * scale) / 2 + panY }
  else
    { drawW := canvasW * scale
      drawH := canvasW * scale / (imgW / imgH)
      offsetX := (canvasW - canvasW * scale) / 2
      offsetY := (canvasH - canvasW * scale / (imgW / imgH)) / 2 + panY }

/-! ## Theorems -/

/-- C5: for every source image with positive dimensions, `resizeImage`'s
output has longer edge at most 1024, preserves the source aspect ratio
exactly (in the rational model), never exceeds the source in either
dimension, and leaves a source already within the bound at its original
dimensions. -/
theorem resizeImage_bounds (srcMime : String) (w h : ℚ)
    (hw : 0 < w) (hh : 0 < h) :
    max (resizeImage srcMime w h).width (resizeImage srcMime w h).height ≤ 1024 ∧
    (resizeImage srcMime w h).width * h = (resizeImage srcMime w h).height * w ∧
    (resizeImage srcMime w h).width ≤ w ∧
    (resizeImage srcMime w h).height ≤ h ∧
    (max w h ≤ 1024 →
      (resizeImage srcMime w h).width = w ∧ (resizeImage srcMime w h).height = h) := by
  simp only [resizeImage, resizeDims]
  split
  case isTrue hwh =>
    split
    case isTrue hbig =>
      have hshrink : h * (1024 / w) ≤ 1024 := by
        rw [mul_div_assoc', div_le_iff₀ hw]
        nlinarith
      refine ⟨max_le le_rfl hshrink, by field_simp; ring, by linarith, ?_, ?_⟩
      · have : h * (1024 / w) ≤ h * 1 := by
          apply mul_le_mul_of_nonneg_left _ (le_of_lt hh)
          rw [div_le_one hw]; linarith
        linarith
      · intro hmax
        exact absurd ((le_max_left w h).trans hmax) (not_le.mpr hbig)
    case isFalse hsmall =>
      refine ⟨?_, by ring, le_rfl, le_rfl, fun _ => ⟨rfl, rfl⟩⟩
      have hle : w ≤ 1024 := le_of_not_lt hsmall
      exact max_le hle (by linarith)
  case isFalse hwh =>
    have hhw : w ≤ h := le_of_not_lt hwh
    split
    case isTrue hbig =>
      have hshrink : w * (1024 / h) ≤ 1024 := by
        rw [mul_div_assoc', div_le_iff₀ hh]
        nlinarith
      refine ⟨max_le hshrink le_rfl, by field_simp; ring, ?_, by linarith, ?_⟩
      · have : w * (1024 / h) ≤ w * 1 := by
          apply mul_le_mul_of_nonneg_left _ (le_of_lt hw)
          rw [div_le_one hh]; linarith
        linarith
      · intro hmax
        exact absurd ((le_max_right w h).trans hmax) (not_le.mpr hbig)
    case isFalse hsmall =>
      refine ⟨?_, by ring, le_rfl, le_rfl, fun _ => ⟨rfl, rfl⟩⟩
      have hle : h ≤ 1024 := le_of_not_lt hsmall
      exact max_le (by linarith) hle

/-- Witness for C5 at a concrete 4000×3000 PNG source. -/
theorem resizeImage_bounds_witness :
    max (resizeImage "image/png" 4000 3000).width (resizeImage "image/png" 4000 3000).height ≤ 1024 ∧
    (resizeImage "image/png" 4000 3000).width * 3000 =
      (resizeImage "image/png" 4000 3000).height * 4000 ∧
    (resizeImage "image/png" 4000 3000).width ≤ 4000 ∧
    (resizeImage "image/png" 4000 3000).height ≤ 3000 ∧
    (max (4000 : ℚ) 3000 ≤ 1024 →
      (resizeImage "image/png" 4000 3000).width = 4000 ∧
      (resizeImage "image/png" 4000 3000).height = 3000) :=
  resizeImage_bounds "image/png" 4000 3000 (by norm_num) (by norm_num)

/-- C10: the preprocessor re-encodes every accepted source as JPEG at
quality 0.7 regardless of the source MIME type, every generation request
declares its payload as `image/jpeg`, and every successful generation
result is a JPEG data URL. -/
theorem jpeg_pipeline (srcMime : String) (w h : ℚ)
    (apiKey base64Image posePrompt : String)
    (remote : GenPayload → RemoteResponse) :
    (resizeImage srcMime w h).mime = "image/jpeg" ∧
    (resizeImage srcMime w h).quality = 7 / 10 ∧
    (buildPayload base64Image posePrompt).inlineData.mimeType = "image/jpeg" ∧
    (∀ s, (generateEditorialImage apiKey remote base64Image posePrompt).1 = Except.ok s →
      ∃ d, s = "data:image/jpeg;base64," ++ d) := by
  refine ⟨rfl, rfl, rfl, fun s hs => ?_⟩
  unfold generateEditorialImage at hs
  by_cases hk : apiKey = ""
  · rw [if_pos hk] at hs
    exact absurd hs (by simp)
  · rw [if_neg hk] at hs
    simp only at hs
    by_cases hok : (remote (buildPayload base64Image posePrompt)).ok = false
    · rw [if_pos hok] at hs
      exact absurd hs (by simp)
    · rw [if_neg hok] at hs
      rcases hd : extractImageData (remote (buildPayload base64Image posePrompt)) with _ | d
      · rw [hd] at hs
        exact absurd hs (by simp)
      · rw [hd] at hs
        exact ⟨d, by simpa using hs.symm⟩

/-- Witness for C10: a concrete successful generation yields a JPEG data
URL, and a PNG source is re-encoded as JPEG. -/
theorem jpeg_pipeline_witness :
    ∃ d, ("data:image/jpeg;base64,d" : String) = "data:image/jpeg;base64," ++ d :=
  (jpeg_pipeline "image/png" 4000 3000 "k" "b" "pose"
      (fun _ => { ok := true, statusText := "OK",
                  parts := [{ inlineData := some { mimeType := "image/jpeg", data := "d" } }] })).2.2.2
    "data:image/jpeg;base64,d" (by rfl)

/-- C6: with no API credential configured (`apiKey = ""`), the Generation
Client fails with the missing-key error (the spec's `RemoteUnavailable`)
attempting zero network calls, and a batch run fails immediately back to
the upload screen with no generated images, no video seed, and zero network
calls attempted. -/
theorem missing_credential_short_circuit
    (remote : GenPayload → RemoteResponse) (base64Input pose : String) :
    generateEditorialImage "" remote base64Input pose =
      (Except.error GenError.apiKeyMissing, 0) ∧
    processImages "" remote base64Input =
      { step := "upload"
        errorMsg := "API Key is missing! Check your .env file."
        generatedImages := []
        videoSeed := none } ∧
    processImagesCalls "" remote base64Input = 0 :=
  ⟨rfl, rfl, rfl⟩

/-- Witness for C6 at a concrete remote oracle that would answer every
request successfully: the batch still refuses to call it. -/
theorem missing_credential_short_circuit_witness :
    processImages ""
        (fun _ => { ok := true, statusText := "OK",
                    parts := [{ inlineData := some { mimeType := "image/jpeg", data := "d" } }] })
        "img" =
      { step := "upload"
        errorMsg := "API Key is missing! Check your .env file."
        generatedImages := []
        videoSeed := none } ∧
    processImagesCalls ""
        (fun _ => { ok := true, statusText := "OK",
                    parts := [{ inlineData := some { mimeType := "image/jpeg", data := "d" } }] })
        "img" = 0 :=
  ⟨(missing_credential_short_circuit
      (fun _ => { ok := true, statusText := "OK",
                  parts := [{ inlineData := some { mimeType := "image/jpeg", data := "d" } }] })
      "img" "pose").2.1,
   (missing_credential_short_circuit
      (fun _ => { ok := true, statusText := "OK",
                  parts := [{ inlineData := some { mimeType := "image/jpeg", data := "d" } }] })
      "img" "pose").2.2⟩

/-- Helper: in any outcome list, the surviving results and the recorded
absences partition the positions. -/
theorem filterMap_id_length_add_count_none (l : List (Option String)) :
    (l.filterMap id).length + l.count none = l.length := by
  induction l with
  | nil => simp
  | cons a t ih =>
    cases a <;> simp [List.filterMap_cons, List.count_cons] <;> omega

/-- C1: for the fixed batch of 4 directives with a configured key: if no
call succeeds `processImages` surfaces the batch-empty error and returns to
the upload stage with no result set; if some succeed it publishes exactly
the surviving assets in directive order; successes and absences partition
the 4 positions; and each directive's outcome depends only on the remote's
response to that directive's own request, so one failure cannot alter the
others. -/
theorem batch_partial_failure (apiKey base64Input : String)
    (remote : GenPayload → RemoteResponse) (hkey : apiKey ≠ "") :
    ((batchOutcomes apiKey remote base64Input).filterMap id = [] →
      processImages apiKey remote base64Input =
        { step := "upload"
          errorMsg := "Failed to generate any images. Please try again."
          generatedImages := []
          videoSeed := none }) ∧
    ((batchOutcomes apiKey remote base64Input).filterMap id ≠ [] →
      (processImages apiKey remote base64Input).generatedImages =
        (batchOutcomes apiKey remote base64Input).filterMap id ∧
      (processImages apiKey remote base64Input).step = "results") ∧
    (batchOutcomes apiKey remote base64Input).length = POSES.length ∧
    ((batchOutcomes apiKey remote base64Input).filterMap id).length +
      (batchOutcomes apiKey remote base64Input).count none = POSES.length ∧
    (∀ pose remote2,
      remote2 (buildPayload base64Input pose) = remote (buildPayload base64Input pose) →
      genOutcome apiKey remote2 base64Input pose =
        genOutcome apiKey remote base64Input pose) := by
  refine ⟨?_, ?_, by simp [batchOutcomes], ?_, ?_⟩
  · intro hempty
    unfold processImages
    rw [if_neg hkey]
    simp [hempty]
  · intro hne
    unfold processImages
    rw [if_neg hkey]
    simp only []
    rw [if_neg (by simpa [List.isEmpty_iff] using hne)]
    exact ⟨rfl, rfl⟩
  · rw [filterMap_id_length_add_count_none]
    simp [batchOutcomes]
  · intro pose remote2 hsame
    simp only [genOutcome, generateEditorialImage, hsame]

/-- Witness for C1: with a key configured and a remote that answers every
request, all four directives succeed and are published in order. -/
theorem batch_partial_failure_witness :
    (processImages "k"
        (fun _ => { ok := true, statusText := "OK",
                    parts := [{ inlineData := some { mimeType := "image/jpeg", data := "d" } }] })
        "img").step = "results" ∧
    (processImages "k"
        (fun _ => { ok := true, statusText := "OK",
                    parts := [{ inlineData := some { mimeType := "image/jpeg", data := "d" } }] })
        "img").generatedImages.length = 4 := by
  have h := (batch_partial_failure "k" "img"
      (fun _ => { ok := true, statusText := "OK",
                  parts := [{ inlineData := some { mimeType := "image/jpeg", data := "d" } }] })
      (by decide)).2.1 (by decide)
  exact ⟨h.2, by rw [h.1]; rfl⟩

/-- Helper: the clamp keeps every reported batch percentage at or below the
95 ceiling. -/
theorem progressAfter_le_95 (n : ℕ) : progressAfter n ≤ 95 := by
  cases n with
  | zero => norm_num [progressAfter]
  | succ m => simp [progressAfter, progressStep]

/-- Helper: each completed call can only raise the reported percentage. -/
theorem progressAfter_mono (n : ℕ) : progressAfter n ≤ progressAfter (n + 1) := by
  have h95 := progressAfter_le_95 n
  have hpos : (0 : ℚ) ≤ progressPerImage := by norm_num [progressPerImage, POSES]
  simp only [progressAfter, progressStep]
  exact le_min (by linarith) h95

/-- C3: every loading-progress trace of a batch run is monotonically
non-decreasing; each completed call applies the same clamped increment
`min (prev + 90/4) 95` on top of the base 10; every value reported before
the batch resolves is at most the 95 ceiling (in particular below 100); and
100 appears in the trace only as the final post-resolution report. -/
theorem batch_progress (apiKey base64Input : String)
    (remote : GenPayload → RemoteResponse) :
    List.Chain' (· ≤ ·) (loadingTrace apiKey remote base64Input) ∧
    progressAfter 0 = 10 ∧
    (∀ n, progressAfter (n + 1) = min (progressAfter n + 90 / 4) 95) ∧
    (∀ n, progressAfter n ≤ 95) ∧
    (∀ q ∈ (List.range (POSES.length + 1)).map progressAfter, q < 100) := by
  refine ⟨?_, rfl, ?_, progressAfter_le_95, ?_⟩
  · have hchain : List.Chain' (· ≤ ·) ((List.range (POSES.length + 1)).map progressAfter) := by
      rw [List.chain'_map, List.chain'_range_succ]
      intro m _
      exact progressAfter_mono m
    unfold loadingTrace
    by_cases hk : apiKey = ""
    · rw [if_pos hk]
      exact List.chain'_nil
    · rw [if_neg hk]
      by_cases hres : ((batchOutcomes apiKey remote base64Input).filterMap id).isEmpty
      · rw [if_pos hres]
        simpa using hchain
      · rw [if_neg hres]
        refine hchain.append (List.chain'_singleton 100) ?_
        intro x hx y hy
        rcases List.mem_getLast?_eq_getLast hx with ⟨hne, rfl⟩
        have hmem := List.getLast_mem hne
        rcases List.mem_map.mp hmem with ⟨n, _, heq⟩
        have hy' : 100 = y := by simpa using hy
        rw [← hy', ← heq]
        linarith [progressAfter_le_95 n]
  · intro n
    norm_num [progressAfter, progressStep, progressPerImage, POSES]
  · intro q hq
    rcases List.mem_map.mp hq with ⟨n, _, rfl⟩
    linarith [progressAfter_le_95 n]

/-- Witness for C3 at a concrete run where two of the four calls fail. -/
theorem batch_progress_witness :
    List.Chain' (· ≤ ·)
      (loadingTrace "k"
        (fun p => { ok := p.promptText ≠ fullPrompt (POSES.get ⟨1, by decide⟩), statusText := "500",
                    parts := [{ inlineData := some { mimeType := "image/jpeg", data := "d" } }] })
        "img") ∧
    progressAfter 0 = 10 :=
  ⟨(batch_progress "k" "img"
      (fun p => { ok := p.promptText ≠ fullPrompt (POSES.get ⟨1, by decide⟩), statusText := "500",
                  parts := [{ inlineData := some { mimeType := "image/jpeg", data := "d" } }] })).1,
   (batch_progress "k" "img"
      (fun p => { ok := p.promptText ≠ fullPrompt (POSES.get ⟨1, by decide⟩), statusText := "500",
                  parts := [{ inlineData := some { mimeType := "image/jpeg", data := "d" } }] })).2.1⟩

/-- C9: whenever at least one generation succeeds, the deferred
`generateGlamCamVideo(results[0])` call is seeded with exactly the first
element of the directive-ordered filtered result list, independently of
whatever the remaining results are (the compositor consumes a single image;
there is no slideshow path). -/
theorem video_seed_first_result (apiKey base64Input : String)
    (remote : GenPayload → RemoteResponse) (r : String) (rest : List String)
    (hkey : apiKey ≠ "")
    (hres : (batchOutcomes apiKey remote base64Input).filterMap id = r :: rest) :
    (processImages apiKey remote base64Input).videoSeed = some r := by
  unfold processImages
  rw [if_neg hkey]
  simp [hres]

/-- Witness for C9: the all-success run seeds the video with the first
generated asset. -/
theorem video_seed_first_result_witness :
    (processImages "k"
        (fun _ => { ok := true, statusText := "OK",
                    parts := [{ inlineData := some { mimeType := "image/jpeg", data := "d" } }] })
        "img").videoSeed = some "data:image/jpeg;base64,d" :=
  video_seed_first_result "k" "img"
    (fun _ => { ok := true, statusText := "OK",
                parts := [{ inlineData := some { mimeType := "image/jpeg", data := "d" } }] })
    "data:image/jpeg;base64,d"
    ["data:image/jpeg;base64,d", "data:image/jpeg;base64,d", "data:image/jpeg;base64,d"]
    (by decide) (by decide)

/-- C2 counterexample: with a runtime that supports none of the probed
types the probe yields `""`, yet the render does not fail — line 239 only
logs a warning, the recorder is built with default options, and the
finalized asset is produced tagged with the `'video/webm'` fallback of
line 253.  This refutes the claimed `NoSupportedEncoding` failure. -/
theorem codec_no_support_still_produces_asset :
    negotiatedMime (fun _ => false) = "" ∧
    generateGlamCamVideo (fun _ => false) true "img" =
      Except.ok { blobType := "video/webm" } :=
  ⟨rfl, rfl⟩

/-- C2 amended: negotiation always selects the first entry of the fixed
preference list that the runtime reports as supported; when no entry is
supported the negotiated type is empty and the render still completes,
producing an asset tagged `'video/webm'` rather than failing. -/
theorem codec_negotiation_first_supported (supported : String → Bool)
    (imageSrc : String) :
    negotiatedMime supported =
      (if supported "video/mp4" then "video/mp4"
       else if supported "video/webm;codecs=vp9" then "video/webm;codecs=vp9"
       else if supported "video/webm;codecs=vp8" then "video/webm;codecs=vp8"
       else if supported "video/webm;codecs=h264" then "video/webm;codecs=h264"
       else if supported "video/webm" then "video/webm"
       else "") ∧
    generateGlamCamVideo supported true imageSrc =
      Except.ok { blobType := if negotiatedMime supported = "" then "video/webm"
                              else negotiatedMime supported } := by
  constructor
  · unfold negotiatedMime videoTypes
    cases h0 : supported "video/mp4" <;>
      cases h1 : supported "video/webm;codecs=vp9" <;>
        cases h2 : supported "video/webm;codecs=vp8" <;>
          cases h3 : supported "video/webm;codecs=h264" <;>
            cases h4 : supported "video/webm" <;>
              simp [List.find?, h0, h1, h2, h3, h4]
  · rfl

/-- C8 counterexample: invoking the render entry while a previous render is
still active (`isVideoGenerating = true`) does not fail — the state is
simply overwritten and a new pass starts.  `generateGlamCamVideo` performs
no in-flight check (lines 206–208), and its only failure mode is a
rejected image load, so no `AlreadyRendering` error exists. -/
theorem render_reentry_not_guarded :
    startGlamCamRender { isVideoGenerating := true, renderingProgress := 37 } =
      { isVideoGenerating := true, renderingProgress := 0 } :=
  rfl

/-- C8 amended: the render entry point is unconditional — whatever the
prior UI state, it marks rendering active and resets progress to 0,
starting a fresh pass with no `AlreadyRendering` guard. -/
theorem render_entry_unconditional (s : RenderUiState) :
    startGlamCamRender s = { isVideoGenerating := true, renderingProgress := 0 } :=
  rfl

/-- Helper: the smoothstep polynomial `t²(3−2t)` is monotone on `[0,1]`. -/
theorem smoothstep_mono {a b : ℚ} (ha : 0 ≤ a) (hab : a ≤ b) (hb : b ≤ 1) :
    a * a * (3 - 2 * a) ≤ b * b * (3 - 2 * b) := by
  have hd : 0 ≤ b - a := by linarith
  have h1a : 0 ≤ 1 - a := by linarith
  have h1b : 0 ≤ 1 - b := by linarith
  have hb0 : 0 ≤ b := by linarith
  nlinarith [mul_nonneg (mul_nonneg hd ha) h1a, mul_nonneg (mul_nonneg hd hb0) h1b,
    mul_nonneg (mul_nonneg hd ha) h1b, mul_nonneg (mul_nonneg hd hb0) h1a]

/-- C4: over the render loop's frame range, the eased scale is
non-decreasing and the pan offset is monotone (non-increasing) along its
single axis; at frame 0 the scale is exactly 1 and the flash alpha is at
its maximum 0.8; the flash alpha falls linearly by 0.2 per frame over the
first four frames and is 0 from frame 4 on, in particular at the final
frame. -/
theorem render_loop_invariant (f1 f2 : ℕ) (h12 : f1 ≤ f2) (h2 : f2 < totalFrames) :
    scaleOf f1 ≤ scaleOf f2 ∧
    panYOf f2 ≤ panYOf f1 ∧
    scaleOf 0 = 1 ∧
    flashAlpha 0 = 8 / 10 ∧
    (∀ f, flashAlpha f ≤ flashAlpha 0) ∧
    (∀ f, f < 4 → flashAlpha f = 8 / 10 - (f : ℚ) * (2 / 10)) ∧
    flashAlpha (totalFrames - 1) = 0 := by
  have h90 : totalFrames = 90 := by norm_num [totalFrames, fps, durationSeconds]
  have htotQ : ((totalFrames : ℕ) : ℚ) = 90 := by rw [h90]; norm_num
  have ha : (0 : ℚ) ≤ tOf f1 := by
    unfold tOf
    positivity
  have hab : tOf f1 ≤ tOf f2 := by
    unfold tOf
    rw [htotQ, div_le_div_iff_of_pos_right (by norm_num : (0 : ℚ) < 90)]
    exact_mod_cast h12
  have hb : tOf f2 ≤ 1 := by
    unfold tOf
    rw [htotQ, div_le_one (by norm_num : (0 : ℚ) < 90)]
    rw [h90] at h2
    exact_mod_cast h2.le
  have hsm : smoothTOf f1 ≤ smoothTOf f2 := smoothstep_mono ha hab hb
  refine ⟨?_, ?_, ?_, ?_, ?_, ?_, ?_⟩
  · unfold scaleOf
    linarith
  · unfold panYOf
    linarith
  · norm_num [scaleOf, smoothTOf, tOf]
  · norm_num [flashAlpha]
  · intro f
    have h0 : flashAlpha 0 = 8 / 10 := by norm_num [flashAlpha]
    rw [h0]
    unfold flashAlpha
    have hf : (0 : ℚ) ≤ (f : ℚ) * (2 / 10) := by positivity
    split <;> linarith
  · intro f hf
    unfold flashAlpha
    rw [if_pos hf]
  · rw [h90]
    norm_num [flashAlpha]

/-- Witness for C4 at frames 10 ≤ 80 of the 90-frame loop. -/
theorem render_loop_invariant_witness :
    scaleOf 10 ≤ scaleOf 80 ∧
    panYOf 80 ≤ panYOf 10 ∧
    scaleOf 0 = 1 ∧
    flashAlpha 0 = 8 / 10 ∧
    (∀ f, flashAlpha f ≤ flashAlpha 0) ∧
    (∀ f, f < 4 → flashAlpha f = 8 / 10 - (f : ℚ) * (2 / 10)) ∧
    flashAlpha (totalFrames - 1) = 0 :=
  render_loop_invariant 10 80 (by norm_num)
    (by norm_num [totalFrames, fps, durationSeconds])

/-- C7: the per-frame cover fit scales the image uniformly — the drawn
rectangle keeps the image's aspect ratio exactly — and for any scale ≥ 1
(the loop's zoom never shrinks below 1) the drawn rectangle is at least as
wide and as tall as the 720×1280 canvas; the image is centered and the pan
offset is then added to the vertical position. -/
theorem cover_fit_covers (imgW imgH scale panY : ℚ)
    (hW : 0 < imgW) (hH : 0 < imgH) (hs : 1 ≤ scale) :
    canvasW ≤ (coverFit imgW imgH scale panY).drawW ∧
    canvasH ≤ (coverFit imgW imgH scale panY).drawH ∧
    (coverFit imgW imgH scale panY).drawW * imgH =
      (coverFit imgW imgH scale panY).drawH * imgW ∧
    (coverFit imgW imgH scale panY).offsetX =
      (canvasW - (coverFit imgW imgH scale panY).drawW) / 2 ∧
    (coverFit imgW imgH scale panY).offsetY =
      (canvasH - (coverFit imgW imgH scale panY).drawH) / 2 + panY := by
  have hr0 : (0 : ℚ) < imgW / imgH := div_pos hW hH
  unfold coverFit canvasW canvasH
  split
  case isTrue hasp =>
    dsimp only
    have hsr : 0 ≤ (scale - 1) * (imgW / imgH) := mul_nonneg (by linarith) hr0.le
    refine ⟨?_, by linarith, ?_, rfl, rfl⟩
    · nlinarith [hasp]
    · field_simp
  case isFalse hasp =>
    dsimp only
    have hrle : imgW / imgH ≤ 720 / 1280 := le_of_not_lt hasp
    refine ⟨by linarith, ?_, ?_, rfl, rfl⟩
    · rw [le_div_iff₀ hr0]
      linarith
    · field_simp

/-- Witness for C7 on a square 1000×1000 image at scale 1 with a pan of
−5. -/
theorem cover_fit_covers_witness :
    canvasW ≤ (coverFit 1000 1000 1 (-5)).drawW ∧
    canvasH ≤ (coverFit 1000 1000 1 (-5)).drawH ∧
    (coverFit 1000 1000 1 (-5)).drawW * 1000 =
      (coverFit 1000 1000 1 (-5)).drawH * 1000 ∧
    (coverFit 1000 1000 1 (-5)).offsetX =
      (canvasW - (coverFit 1000 1000 1 (-5)).drawW) / 2 ∧
    (coverFit 1000 1000 1 (-5)).offsetY =
      (canvasH - (coverFit 1000 1000 1 (-5)).drawH) / 2 + -5 :=
  cover_fit_covers 1000 1000 1 (-5) (by norm_num) (by norm_num) (by norm_num)

end Lumina
